import Mathlib

/-!
Shallow embedding of the aries-framework-rs core covered by the
specification: the Prover presentation-exchange state machine
(src/libvcx/src/v3/handlers/proof_presentation/prover/states.rs), the
agency message record decryption (src/libvcx/src/agency_vcx/get_message.rs),
the payload decryptor (src/libvcx/src/messages/payload.rs) and the
wire-level string codecs for MessageStatusCode and RemoteMessageType
(src/libvcx/src/messages/mod.rs).

External collaborators (wallet crypto, proof generation, connection
transport, serde serialization) are passed in as explicit environment
records, so that every code path of the embedded functions remains a pure,
executable Lean function.
-/

namespace AriesVcx

/-- Modelled from the spec: the `Thread` correlation header
(src/libvcx/src/messages/thread.rs is not among the provided sources).
It carries at minimum `thid`; `is_reply x` holds when the thread id
equals `x` (an absent `thid` is compared as the empty string, matching
the upstream default behaviour). -/
structure Thread where
  thid : Option String
deriving DecidableEq, Repr

def Thread.is_reply (t : Thread) (x : String) : Bool :=
  t.thid.getD "" == x

/-- Modelled from the spec: `PresentationRequest`
(v3/messages/proof_presentation/presentation_request.rs is not among the
provided sources). It carries `@id` (the protocol thread id) and the
request-presentations attachment, which the Prover must preserve verbatim. -/
structure PresentationRequest where
  id : String
  request_presentations_attach : String
deriving DecidableEq, Repr

/-- Modelled from the spec: a prepared `Presentation` message
(v3/messages/proof_presentation/presentation.rs is not among the provided
sources): a thread header plus the presentations attachment. -/
structure Presentation where
  thread : Thread
  presentations_attach : String
deriving DecidableEq, Repr

/-- Presentation::create() builds an empty presentation. -/
def Presentation.create : Presentation :=
  { thread := { thid := none }, presentations_attach := "" }

/-- Modelled from the spec: a thread-correlated `ProblemReport`
(v3/messages/error.rs is not among the provided sources): a comment and a
thread header. -/
structure ProblemReport where
  comment : Option String
  thread : Thread
deriving DecidableEq, Repr

/-- Status carried by the Finished prover state (v3/messages/status.rs),
as described by the spec: Undefined, Success, or Failed with a report. -/
inductive Status where
  | Undefined : Status
  | Success : Status
  | Failed (report : ProblemReport) : Status
deriving DecidableEq, Repr

/-- AckStatus from src/libvcx/src/aries/messages/ack.rs. -/
inductive AckStatus where
  | Ok : AckStatus
  | Fail : AckStatus
  | Pending : AckStatus
deriving DecidableEq, Repr

/-- Ack from src/libvcx/src/aries/messages/ack.rs: an id, a status and a
thread header. -/
structure Ack where
  id : String
  status : AckStatus
  thread : Thread
deriving DecidableEq, Repr

/-- Modelled from the spec: the closed A2A wire-message union
(the a2a module is not among the provided sources). Only the variants the
embedded code inspects are distinguished; all others fall under Other. -/
inductive A2AMessage where
  | PresentationRequest (request : PresentationRequest) : A2AMessage
  | Presentation (presentation : Presentation) : A2AMessage
  | PresentationProposal (thread : Thread) : A2AMessage
  | Ack (ack : Ack) : A2AMessage
  | CommonProblemReport (report : ProblemReport) : A2AMessage
  | CredentialOffer (offer : String) : A2AMessage
  | Credential (cred : String) : A2AMessage
  | Other (tag : String) : A2AMessage
deriving DecidableEq, Repr

/-- Error kinds used by the core (src/libvcx/src/error, per spec section 7). -/
inductive VcxErrorKind where
  | InvalidJson : VcxErrorKind
  | SerializationError : VcxErrorKind
  | InvalidMessagePack : VcxErrorKind
  | InvalidState : VcxErrorKind
  | InvalidHttpResponse : VcxErrorKind
  | PostMessageFailed : VcxErrorKind
  | NotReady : VcxErrorKind
  | InvalidConfiguration : VcxErrorKind
deriving DecidableEq, Repr

/-- VcxError: a kind plus a message, as built by VcxError::from_msg. -/
structure VcxError where
  kind : VcxErrorKind
  msg : String
deriving DecidableEq, Repr

/-- InitialState from prover/states.rs. -/
structure InitialState where
  presentation_request : PresentationRequest
deriving DecidableEq, Repr

/-- PresentationPreparedState from prover/states.rs. -/
structure PresentationPreparedState where
  presentation_request : PresentationRequest
  presentation : Presentation
deriving DecidableEq, Repr

/-- PresentationPreparationFailedState from prover/states.rs. -/
structure PresentationPreparationFailedState where
  presentation_request : PresentationRequest
  problem_report : ProblemReport
deriving DecidableEq, Repr

/-- PresentationSentState from prover/states.rs; connection_handle is a u32
handle, modelled as Nat since it is only carried, never computed with. -/
structure PresentationSentState where
  connection_handle : Nat
  presentation_request : PresentationRequest
  presentation : Presentation
deriving DecidableEq, Repr

/-- FinishedState from prover/states.rs. -/
structure FinishedState where
  connection_handle : Nat
  presentation_request : PresentationRequest
  presentation : Presentation
  status : Status
deriving DecidableEq, Repr

/-- ProverState from prover/states.rs. -/
inductive ProverState where
  | Initiated (s : InitialState) : ProverState
  | PresentationPrepared (s : PresentationPreparedState) : ProverState
  | PresentationPreparationFailed (s : PresentationPreparationFailedState) : ProverState
  | PresentationSent (s : PresentationSentState) : ProverState
  | Finished (s : FinishedState) : ProverState
deriving DecidableEq, Repr

/-- ProverSM from prover/states.rs. -/
structure ProverSM where
  source_id : String
  state : ProverState
deriving DecidableEq, Repr

/-- ProverSM::new builds an Initiated machine holding the request. -/
def ProverSM.new (presentation_request : PresentationRequest) (source_id : String) : ProverSM :=
  { source_id, state := ProverState.Initiated { presentation_request } }

/-- Modelled from the spec: the driver-command enum ProverMessages
(prover/messages.rs is not among the provided sources). -/
inductive ProverMessages where
  | PreparePresentation (credentials : String) (self_attested_attrs : String) : ProverMessages
  | SendPresentation (connection_handle : Nat) : ProverMessages
  | PresentationAckReceived (ack : Ack) : ProverMessages
  | PresentationRejectReceived (report : ProblemReport) : ProverMessages
  | PresentationProposalReceived : ProverMessages
deriving DecidableEq, Repr

/-- Environment for one ProverSM::step call: the outcomes of the external
collaborator calls the transition may make (InitialState::build_presentation,
which wraps indy proof generation; connection::send_message;
connection::remove_pending_message). -/
structure StepEnv where
  build_presentation : Except VcxError Presentation
  send_message : Except VcxError Unit
  remove_pending_message : Except VcxError Unit

/-- ProverSM::step from prover/states.rs lines 200-268: the transition
function of the Prover presentation-exchange machine. -/
def ProverSM.step (sm : ProverSM) (message : ProverMessages) (env : StepEnv) : Except VcxError ProverSM :=
  match sm.state with
  | ProverState.Initiated st =>
    match message with
    | ProverMessages.PreparePresentation _ _ =>
      match env.build_presentation with
      | Except.ok presentation =>
        Except.ok { source_id := sm.source_id,
                    state := ProverState.PresentationPrepared
                      { presentation_request := st.presentation_request, presentation } }
      | Except.error err =>
        let problem_report : ProblemReport :=
          { comment := some err.msg,
            thread := { thid := some st.presentation_request.id } }
        Except.ok { source_id := sm.source_id,
                    state := ProverState.PresentationPreparationFailed
                      { presentation_request := st.presentation_request, problem_report } }
    | _ => Except.ok { source_id := sm.source_id, state := ProverState.Initiated st }
  | ProverState.PresentationPrepared st =>
    match message with
    | ProverMessages.SendPresentation connection_handle =>
      match env.send_message with
      | Except.error e => Except.error e
      | Except.ok _ =>
        match env.remove_pending_message with
        | Except.error e => Except.error e
        | Except.ok _ =>
          Except.ok { source_id := sm.source_id,
                      state := ProverState.PresentationSent
                        { connection_handle,
                          presentation_request := st.presentation_request,
                          presentation := st.presentation } }
    | _ => Except.ok { source_id := sm.source_id, state := ProverState.PresentationPrepared st }
  | ProverState.PresentationPreparationFailed st =>
    match message with
    | ProverMessages.SendPresentation connection_handle =>
      match env.send_message with
      | Except.error e => Except.error e
      | Except.ok _ =>
        Except.ok { source_id := sm.source_id,
                    state := ProverState.Finished
                      { connection_handle,
                        presentation_request := st.presentation_request,
                        presentation := Presentation.create,
                        status := Status.Failed st.problem_report } }
    | _ => Except.ok { source_id := sm.source_id,
                       state := ProverState.PresentationPreparationFailed st }
  | ProverState.PresentationSent st =>
    match message with
    | ProverMessages.PresentationAckReceived _ =>
      Except.ok { source_id := sm.source_id,
                  state := ProverState.Finished
                    { connection_handle := st.connection_handle,
                      presentation_request := st.presentation_request,
                      presentation := st.presentation,
                      status := Status.Success } }
    | ProverMessages.PresentationRejectReceived problem_report =>
      Except.ok { source_id := sm.source_id,
                  state := ProverState.Finished
                    { connection_handle := st.connection_handle,
                      presentation_request := st.presentation_request,
                      presentation := st.presentation,
                      status := Status.Failed problem_report } }
    | _ => Except.ok { source_id := sm.source_id, state := ProverState.PresentationSent st }
  | ProverState.Finished st =>
    Except.ok { source_id := sm.source_id, state := ProverState.Finished st }

/-- ProverSM::presentation_request from prover/states.rs lines 311-319:
every state carries the request. -/
def ProverSM.presentation_request (sm : ProverSM) : PresentationRequest :=
  match sm.state with
  | ProverState.Initiated st => st.presentation_request
  | ProverState.PresentationPrepared st => st.presentation_request
  | ProverState.PresentationPreparationFailed st => st.presentation_request
  | ProverState.PresentationSent st => st.presentation_request
  | ProverState.Finished st => st.presentation_request

/-- ProverSM::thread_id: the request id. -/
def ProverSM.thread_id (sm : ProverSM) : String :=
  sm.presentation_request.id

/-- ProverSM::connection_handle from prover/states.rs lines 301-309. -/
def ProverSM.connection_handle (sm : ProverSM) : Except VcxError Nat :=
  match sm.state with
  | ProverState.Initiated _ =>
    Except.error { kind := VcxErrorKind.NotReady, msg := "Connection handle is not set" }
  | ProverState.PresentationPrepared _ =>
    Except.error { kind := VcxErrorKind.NotReady, msg := "Connection handle is not set" }
  | ProverState.PresentationPreparationFailed _ =>
    Except.error { kind := VcxErrorKind.NotReady, msg := "Connection handle is not set" }
  | ProverState.PresentationSent st => Except.ok st.connection_handle
  | ProverState.Finished st => Except.ok st.connection_handle

/-- ProverSM::find_message_to_handle from prover/states.rs lines 157-198,
with the HashMap iteration made explicit as a list of (uid, message) pairs
in iteration order. -/
def ProverSM.find_message_to_handle (sm : ProverSM) :
    List (String × A2AMessage) → Option (String × A2AMessage)
  | [] => none
  | (uid, message) :: rest =>
    match sm.state, message with
    | ProverState.PresentationSent _, A2AMessage.Ack ack =>
      if ack.thread.is_reply sm.thread_id then some (uid, A2AMessage.Ack ack)
      else sm.find_message_to_handle rest
    | ProverState.PresentationSent _, A2AMessage.CommonProblemReport problem_report =>
      if problem_report.thread.is_reply sm.thread_id then
        some (uid, A2AMessage.CommonProblemReport problem_report)
      else sm.find_message_to_handle rest
    | _, _ => sm.find_message_to_handle rest

/-- Repeated application of step: a driver trace, each command paired with
the environment its external calls see; stops at the first error as the
caller loses the machine when step returns Err. -/
def ProverSM.run : ProverSM → List (ProverMessages × StepEnv) → Except VcxError ProverSM
  | sm, [] => Except.ok sm
  | sm, (m, env) :: rest =>
    match sm.step m env with
    | Except.ok sm2 => sm2.run rest
    | Except.error e => Except.error e

/-! Wire-level string codecs, src/libvcx/src/messages/mod.rs. -/

/-- RemoteMessageType from src/libvcx/src/messages/mod.rs lines 308-319. -/
inductive RemoteMessageType where
  | Other (tag : String) : RemoteMessageType
  | ConnReq : RemoteMessageType
  | ConnReqAnswer : RemoteMessageType
  | ConnReqRedirect : RemoteMessageType
  | CredOffer : RemoteMessageType
  | CredReq : RemoteMessageType
  | Cred : RemoteMessageType
  | ProofReq : RemoteMessageType
  | Proof : RemoteMessageType
deriving DecidableEq, Repr

/-- Serialize for RemoteMessageType (mod.rs lines 321-336): the JSON string
each variant serializes to. -/
def RemoteMessageType.serialize : RemoteMessageType → String
  | RemoteMessageType.ConnReq => "connReq"
  | RemoteMessageType.ConnReqAnswer => "connReqAnswer"
  | RemoteMessageType.ConnReqRedirect => "connReqRedirect"
  | RemoteMessageType.CredOffer => "credOffer"
  | RemoteMessageType.CredReq => "credReq"
  | RemoteMessageType.Cred => "cred"
  | RemoteMessageType.ProofReq => "proofReq"
  | RemoteMessageType.Proof => "proof"
  | RemoteMessageType.Other tag => tag

/-- Deserialize for RemoteMessageType (mod.rs lines 338-354) at JSON string
inputs. On a string the Rust implementation never errors: unrecognized
tokens land in the catch-all Other arm (the error branch fires only for
non-string JSON values, which serialization never produces). -/
def RemoteMessageType.deserialize (s : String) : RemoteMessageType :=
  if s = "connReq" then RemoteMessageType.ConnReq
  else if s = "connReqAnswer" ∨ s = "CONN_REQ_ACCEPTED" then RemoteMessageType.ConnReqAnswer
  else if s = "connReqRedirect" ∨ s = "CONN_REQ_REDIRECTED" ∨ s = "connReqRedirected" then
    RemoteMessageType.ConnReqRedirect
  else if s = "credOffer" then RemoteMessageType.CredOffer
  else if s = "credReq" then RemoteMessageType.CredReq
  else if s = "cred" then RemoteMessageType.Cred
  else if s = "proofReq" then RemoteMessageType.ProofReq
  else if s = "proof" then RemoteMessageType.Proof
  else RemoteMessageType.Other s

/-- The tokens the RemoteMessageType decoder recognizes as canonical
spellings or aliases (every branch of the match in mod.rs lines 342-349). -/
def RemoteMessageType.recognizedTokens : List String :=
  ["connReq", "connReqAnswer", "CONN_REQ_ACCEPTED",
   "connReqRedirect", "CONN_REQ_REDIRECTED", "connReqRedirected",
   "credOffer", "credReq", "cred", "proofReq", "proof"]

/-- MessageStatusCode from src/libvcx/src/messages/mod.rs lines 356-365. -/
inductive MessageStatusCode where
  | Created : MessageStatusCode
  | Sent : MessageStatusCode
  | Received : MessageStatusCode
  | Accepted : MessageStatusCode
  | Rejected : MessageStatusCode
  | Reviewed : MessageStatusCode
  | Redirected : MessageStatusCode
deriving DecidableEq, Repr

/-- ToString for MessageStatusCode (mod.rs lines 381-393); Serialize emits
exactly this string. -/
def MessageStatusCode.to_string : MessageStatusCode → String
  | MessageStatusCode.Created => "MS-101"
  | MessageStatusCode.Sent => "MS-102"
  | MessageStatusCode.Received => "MS-103"
  | MessageStatusCode.Accepted => "MS-104"
  | MessageStatusCode.Rejected => "MS-105"
  | MessageStatusCode.Reviewed => "MS-106"
  | MessageStatusCode.Redirected => "MS-107"

/-- Deserialize for MessageStatusCode (mod.rs lines 402-416) at JSON string
inputs: only the seven MS-1xx tokens decode, anything else is an error. -/
def MessageStatusCode.deserialize (s : String) : Except String MessageStatusCode :=
  if s = "MS-101" then Except.ok MessageStatusCode.Created
  else if s = "MS-102" then Except.ok MessageStatusCode.Sent
  else if s = "MS-103" then Except.ok MessageStatusCode.Received
  else if s = "MS-104" then Except.ok MessageStatusCode.Accepted
  else if s = "MS-105" then Except.ok MessageStatusCode.Rejected
  else if s = "MS-106" then Except.ok MessageStatusCode.Reviewed
  else if s = "MS-107" then Except.ok MessageStatusCode.Redirected
  else Except.error "Unexpected message type."

/-- The seven wire strings of MessageStatusCode. -/
def MessageStatusCode.wireStrings : List String :=
  ["MS-101", "MS-102", "MS-103", "MS-104", "MS-105", "MS-106", "MS-107"]

/-! Payloads, src/libvcx/src/messages/payload.rs. -/

/-- Minimal JSON value model for serde_json::Value as the embedded code
inspects it (object field lookup and string extraction). -/
inductive Json where
  | null : Json
  | bool (b : Bool) : Json
  | num (n : Int) : Json
  | str (s : String) : Json
  | arr (elems : List Json) : Json
  | obj (fields : List (String × Json)) : Json

/-- serde_json Value indexing: field lookup on an object, Null otherwise. -/
def Json.getField : Json → String → Json
  | Json.obj fields, key =>
    match fields.find? (fun kv => kv.fst == key) with
    | some kv => kv.snd
    | none => Json.null
  | _, _ => Json.null

/-- serde_json Value::as_str: the string when the value is a string. -/
def Json.as_str : Json → Option String
  | Json.str s => some s
  | _ => none

/-- PayloadTypeV1 from payload.rs lines 114-119. -/
structure PayloadTypeV1 where
  name : String
  ver : String
  fmt : String
deriving DecidableEq, Repr

/-- Modelled from the spec: the V2 message type object
(src/libvcx/src/messages/message_type.rs is not among the provided sources):
fields did, family, version, type. The family is kept as its canonical
string. -/
structure PayloadTypeV2 where
  did : String
  family : String
  version : String
  type_ : String
deriving DecidableEq, Repr

/-- PayloadV1 from payload.rs lines 17-23. -/
structure PayloadV1 where
  type_ : PayloadTypeV1
  msg : String
deriving DecidableEq, Repr

/-- PayloadV2 from payload.rs lines 25-35. -/
structure PayloadV2 where
  type_ : PayloadTypeV2
  id : String
  msg : String
  thread : Thread
deriving DecidableEq, Repr

/-- Payloads from payload.rs lines 10-15. -/
inductive Payloads where
  | PayloadV1 (p : PayloadV1) : Payloads
  | PayloadV2 (p : PayloadV2) : Payloads
deriving DecidableEq, Repr

/-- Environment for one Payloads::decrypt_payload_v2 call: the wallet
unpack_message result (bytes, modelled as a list of byte values), the serde
parse of those bytes into a JSON value, and the serde parse of the inner
message string into a PayloadV2. -/
structure DecryptPayloadV2Env where
  unpack_message : Except VcxError (List Nat)
  parse_json : List Nat → Except String Json
  parse_payload_v2 : String → Except String PayloadV2

/-- Payloads::decrypt_payload_v2 from payload.rs lines 81-104: unpack,
parse, extract the message string field, parse it as PayloadV2, and restore
the thid-from-id invariant. -/
def Payloads.decrypt_payload_v2 (env : DecryptPayloadV2Env) (_my_vk : String)
    (_payload : Json) : Except VcxError AriesVcx.PayloadV2 :=
  match env.unpack_message with
  | Except.error e => Except.error e
  | Except.ok unpacked_msg =>
    match env.parse_json unpacked_msg with
    | Except.error err =>
      Except.error { kind := VcxErrorKind.InvalidJson,
                     msg := "Cannot deserialize payload: " ++ err }
    | Except.ok message =>
      match (message.getField "message").as_str with
      | none =>
        Except.error { kind := VcxErrorKind.InvalidJson,
                       msg := "Cannot find message field" }
      | some messageStr =>
        match env.parse_payload_v2 messageStr with
        | Except.error err =>
          Except.error { kind := VcxErrorKind.InvalidJson,
                         msg := "Cannot deserialize payload: " ++ err }
        | Except.ok my_payload =>
          if my_payload.thread.thid = none then
            Except.ok { my_payload with
                        thread := { my_payload.thread with thid := some my_payload.id } }
          else
            Except.ok my_payload

/-! Message records and decryption, src/libvcx/src/agency_vcx/get_message.rs. -/

/-- ProtocolTypes from settings (spec section on configuration). -/
inductive ProtocolTypes where
  | V1 : ProtocolTypes
  | V2 : ProtocolTypes
  | V3 : ProtocolTypes
  | V4 : ProtocolTypes
deriving DecidableEq, Repr

/-- PayloadKinds from payload.rs lines 123-131. -/
inductive PayloadKinds where
  | CredOffer : PayloadKinds
  | CredReq : PayloadKinds
  | Cred : PayloadKinds
  | Proof : PayloadKinds
  | ProofRequest : PayloadKinds
  | Other (s : String) : PayloadKinds
deriving DecidableEq, Repr

/-- PayloadKinds::name from payload.rs lines 145-170, with the process-wide
protocol type passed explicitly. -/
def PayloadKinds.name (protocol : ProtocolTypes) : PayloadKinds → String
  | PayloadKinds.CredOffer =>
    match protocol with
    | ProtocolTypes.V1 => "CRED_OFFER"
    | _ => "credential-offer"
  | PayloadKinds.CredReq =>
    match protocol with
    | ProtocolTypes.V1 => "CRED_REQ"
    | _ => "credential-request"
  | PayloadKinds.Cred =>
    match protocol with
    | ProtocolTypes.V1 => "CRED"
    | _ => "credential"
  | PayloadKinds.ProofRequest =>
    match protocol with
    | ProtocolTypes.V1 => "PROOF_REQUEST"
    | _ => "presentation-request"
  | PayloadKinds.Proof =>
    match protocol with
    | ProtocolTypes.V1 => "PROOF"
    | _ => "presentation"
  | PayloadKinds.Other kind => kind

/-- Modelled from the spec: MESSAGE_VERSION_V1 (message_type.rs is not among
the provided sources); the V1 payload version token. -/
def MESSAGE_VERSION_V1 : String := "1.0"

/-- PayloadTypes::build_v1 from payload.rs lines 174-180. -/
def PayloadTypes.build_v1 (protocol : ProtocolTypes) (kind : PayloadKinds)
    (fmt : String) : PayloadTypeV1 :=
  { name := kind.name protocol, ver := MESSAGE_VERSION_V1, fmt }

/-- MessagePayload from get_message.rs lines 235-239: the wire payload is an
opaque (encrypted) JSON value. -/
inductive MessagePayload where
  | V2 (payload : Json) : MessagePayload

/-- DeliveryDetails from get_message.rs lines 227-233; the source field
named to is spelled to_ here because to is a Lean keyword. -/
structure DeliveryDetails where
  to_ : String
  status_code : String
  last_updated_date_time : String
deriving DecidableEq, Repr

/-- Message record from get_message.rs lines 241-257. -/
structure Message where
  status_code : MessageStatusCode
  payload : Option MessagePayload
  sender_did : String
  uid : String
  msg_type : RemoteMessageType
  ref_msg_id : Option String
  delivery_details : List DeliveryDetails
  decrypted_payload : Option String

/-- Message::payload getter from get_message.rs lines 267-272: the inner
encrypted JSON value, or InvalidState when absent. -/
def Message.payload_value (m : Message) : Except VcxError Json :=
  match m.payload with
  | some (MessagePayload.V2 payload) => Except.ok payload
  | none => Except.error { kind := VcxErrorKind.InvalidState, msg := "" }

/-- Environment for one Message::decrypt call: the decrypt_payload_v2
collaborator outcomes, the EncryptionEnvelope::open outcome used by the
_decrypt_v3_message fallback, the configured protocol type, and the serde
serializers (total on these derived data types). -/
structure MessageDecryptEnv where
  v2 : DecryptPayloadV2Env
  open_envelope : Except VcxError A2AMessage
  protocol : ProtocolTypes
  to_string_payloads : Payloads → String
  to_string_payload_v1 : PayloadV1 → String
  to_string_a2a : A2AMessage → String

/-- Message::_decrypt_v3_message from get_message.rs lines 296-318: open the
encryption envelope and classify the inner aries message into a synthetic V1
payload. -/
def Message.decrypt_v3_message (m : Message) (env : MessageDecryptEnv) :
    Except VcxError PayloadV1 :=
  match m.payload_value with
  | Except.error e => Except.error e
  | Except.ok _ =>
    match env.open_envelope with
    | Except.error e => Except.error e
    | Except.ok a2a_message =>
      let kind_msg : PayloadKinds × String :=
        match a2a_message with
        | A2AMessage.PresentationRequest _ =>
          (PayloadKinds.ProofRequest, env.to_string_a2a a2a_message)
        | A2AMessage.CredentialOffer _ =>
          (PayloadKinds.CredOffer, env.to_string_a2a a2a_message)
        | A2AMessage.Credential _ =>
          (PayloadKinds.Cred, env.to_string_a2a a2a_message)
        | A2AMessage.Presentation _ =>
          (PayloadKinds.Proof, env.to_string_a2a a2a_message)
        | msg => (PayloadKinds.Other "aries", env.to_string_a2a msg)
      Except.ok { type_ := PayloadTypes.build_v1 env.protocol kind_msg.fst "json",
                  msg := kind_msg.snd }

/-- Message::decrypt from get_message.rs lines 274-294: clone the record;
when a payload is present try decrypt_payload_v2 first, then the
_decrypt_v3_message fallback, then the literal JSON null; always clear the
payload field. -/
def Message.decrypt (m : Message) (env : MessageDecryptEnv) (vk : String) : Message :=
  let new_message := m
  let new_message :=
    match m.payload with
    | some (MessagePayload.V2 payload) =>
      match Payloads.decrypt_payload_v2 env.v2 vk payload with
      | Except.ok p2 =>
        { new_message with
          decrypted_payload := some (env.to_string_payloads (Payloads.PayloadV2 p2)) }
      | Except.error _ =>
        match m.decrypt_v3_message env with
        | Except.ok p1 =>
          { new_message with decrypted_payload := some (env.to_string_payload_v1 p1) }
        | Except.error _ =>
          { new_message with decrypted_payload := some "null" }
    | none => new_message
  { new_message with payload := none }

/-- Characteristic predicate of the messages find_message_to_handle may
return: in PresentationSent, an Ack or a CommonProblemReport whose thread
replies to the machine thread id; nothing in any other state. -/
def ProverSM.handleable (sm : ProverSM) (entry : String × A2AMessage) : Bool :=
  match sm.state, entry.snd with
  | ProverState.PresentationSent _, A2AMessage.Ack ack => ack.thread.is_reply sm.thread_id
  | ProverState.PresentationSent _, A2AMessage.CommonProblemReport problem_report =>
    problem_report.thread.is_reply sm.thread_id
  | _, _ => false

/-! Concrete values used by the closed witness and counterexample theorems. -/

/-- Sample presentation request. -/
def requestW : PresentationRequest := { id := "req-1", request_presentations_attach := "attach-data" }

/-- Step environment whose external calls all succeed. -/
def envOk : StepEnv :=
  { build_presentation := Except.ok Presentation.create,
    send_message := Except.ok (),
    remove_pending_message := Except.ok () }

/-- Sample ack replying to requestW. -/
def ackW : Ack := { id := "ack-1", status := AckStatus.Ok, thread := { thid := some "req-1" } }

/-- Sample problem report replying to requestW. -/
def prW : ProblemReport := { comment := none, thread := { thid := some "req-1" } }

/-- Sample machine in PresentationSent holding requestW. -/
def smSentW : ProverSM :=
  { source_id := "source",
    state := ProverState.PresentationSent
      { connection_handle := 42, presentation_request := requestW,
        presentation := Presentation.create } }

/-- Candidate map in which a matching problem report precedes a matching ack
in iteration order. -/
def msgsW : List (String × A2AMessage) :=
  [("uid-1", A2AMessage.CommonProblemReport prW), ("uid-2", A2AMessage.Ack ackW)]

/-- Machine after a successful PreparePresentation on requestW. -/
def smPreparedW : ProverSM :=
  { source_id := "source",
    state := ProverState.PresentationPrepared
      { presentation_request := requestW, presentation := Presentation.create } }

/-! Helper lemmas on the prover machine. -/

/-- Any successful step leaves the carried presentation request unchanged. -/
theorem ProverSM.step_preserves_request {sm sm' : ProverSM} {m : ProverMessages}
    {env : StepEnv} (h : sm.step m env = Except.ok sm') :
    sm'.presentation_request = sm.presentation_request := by
  obtain ⟨sid, st⟩ := sm
  cases st <;> cases m <;>
    cases hb : env.build_presentation <;>
    cases hs : env.send_message <;>
    cases hr : env.remove_pending_message <;>
    simp only [ProverSM.step, hb, hs, hr, Except.ok.injEq] at h <;>
    first
      | (subst h; simp [ProverSM.presentation_request])
      | simp at h

/-- Any successful trace leaves the carried presentation request unchanged. -/
theorem ProverSM.run_preserves_request :
    ∀ (cmds : List (ProverMessages × StepEnv)) (sm sm' : ProverSM),
      sm.run cmds = Except.ok sm' → sm'.presentation_request = sm.presentation_request := by
  intro cmds
  induction cmds with
  | nil =>
    intro sm sm' h
    simp [ProverSM.run] at h
    rw [h]
  | cons head tail ih =>
    intro sm sm' h
    obtain ⟨m, env⟩ := head
    simp only [ProverSM.run] at h
    cases hstep : sm.step m env with
    | error e => rw [hstep] at h; exact absurd h (by simp)
    | ok sm2 =>
      rw [hstep] at h
      exact (ih sm2 sm' h).trans (ProverSM.step_preserves_request hstep)

/-! Claim theorems for the prover state machine. -/

/-- C1: for every ProverSM whose state is Finished and every driver command,
step returns Ok and the machine is unchanged: Finished is terminal. -/
theorem prover_finished_is_terminal (source_id : String) (f : FinishedState)
    (m : ProverMessages) (env : StepEnv) :
    ProverSM.step { source_id, state := ProverState.Finished f } m env =
      Except.ok { source_id, state := ProverState.Finished f } := rfl

/-- C2: along every successful trace of driver commands from
ProverSM.new R s, every machine reached carries the original request R
verbatim and its thread_id is the id of R. -/
theorem prover_run_preserves_request_and_thread_id (R : PresentationRequest)
    (s : String) (cmds : List (ProverMessages × StepEnv)) (sm' : ProverSM)
    (h : (ProverSM.new R s).run cmds = Except.ok sm') :
    sm'.presentation_request = R ∧ sm'.thread_id = R.id := by
  have hreq : sm'.presentation_request = R := ProverSM.run_preserves_request cmds _ _ h
  exact ⟨hreq, by rw [ProverSM.thread_id, hreq]⟩

/-- Witness for C2 at a concrete one-command trace. -/
theorem prover_run_preserves_request_and_thread_id_witness :
    (ProverSM.new requestW "source").run
        [(ProverMessages.PreparePresentation "cred" "sa", envOk)] =
      Except.ok smPreparedW ∧
    smPreparedW.presentation_request = requestW ∧ smPreparedW.thread_id = requestW.id :=
  ⟨rfl, prover_run_preserves_request_and_thread_id requestW "source"
    [(ProverMessages.PreparePresentation "cred" "sa", envOk)] smPreparedW rfl⟩

/-- C4: from Initiated, PreparePresentation always returns Ok; when proof
generation succeeds the machine moves to PresentationPrepared with the built
presentation, and when it fails the machine moves to
PresentationPreparationFailed carrying a ProblemReport whose thread thid is
the request id. -/
theorem prover_prepare_presentation_spec (sid : String) (req : PresentationRequest)
    (creds sa : String) (env : StepEnv) :
    (((ProverSM.mk sid (ProverState.Initiated ⟨req⟩)).step
        (ProverMessages.PreparePresentation creds sa) env).isOk = true) ∧
    (∀ p, env.build_presentation = Except.ok p →
      (ProverSM.mk sid (ProverState.Initiated ⟨req⟩)).step
          (ProverMessages.PreparePresentation creds sa) env =
        Except.ok ⟨sid, ProverState.PresentationPrepared ⟨req, p⟩⟩) ∧
    (∀ e, env.build_presentation = Except.error e →
      (ProverSM.mk sid (ProverState.Initiated ⟨req⟩)).step
          (ProverMessages.PreparePresentation creds sa) env =
        Except.ok ⟨sid, ProverState.PresentationPreparationFailed
          ⟨req, { comment := some e.msg, thread := { thid := some req.id } }⟩⟩) := by
  refine ⟨?_, ?_, ?_⟩
  · cases hb : env.build_presentation <;>
      simp [ProverSM.step, hb, Except.isOk, Except.toBool]
  · intro p hb; simp [ProverSM.step, hb]
  · intro e hb; simp [ProverSM.step, hb]

/-- Witness for C4 at a concrete request and environment. -/
theorem prover_prepare_presentation_spec_witness :
    (ProverSM.mk "source" (ProverState.Initiated ⟨requestW⟩)).step
        (ProverMessages.PreparePresentation "cred" "sa") envOk =
      Except.ok ⟨"source", ProverState.PresentationPrepared ⟨requestW, Presentation.create⟩⟩ :=
  (prover_prepare_presentation_spec "source" requestW "cred" "sa" envOk).2.1
    Presentation.create rfl

/-- C9: connection_handle fails with NotReady in Initiated,
PresentationPrepared and PresentationPreparationFailed; the SendPresentation
command that leaves the prepared (or preparation-failed) state installs its
handle, and every successful step from PresentationSent or Finished carries
the handle unchanged. -/
theorem prover_connection_handle_spec :
    (∀ (sid : String) (st : InitialState),
      (ProverSM.mk sid (ProverState.Initiated st)).connection_handle =
        Except.error { kind := VcxErrorKind.NotReady, msg := "Connection handle is not set" }) ∧
    (∀ (sid : String) (st : PresentationPreparedState),
      (ProverSM.mk sid (ProverState.PresentationPrepared st)).connection_handle =
        Except.error { kind := VcxErrorKind.NotReady, msg := "Connection handle is not set" }) ∧
    (∀ (sid : String) (st : PresentationPreparationFailedState),
      (ProverSM.mk sid (ProverState.PresentationPreparationFailed st)).connection_handle =
        Except.error { kind := VcxErrorKind.NotReady, msg := "Connection handle is not set" }) ∧
    (∀ (sid : String) (st : PresentationPreparedState) (h : Nat) (env : StepEnv)
        (sm' : ProverSM),
      (ProverSM.mk sid (ProverState.PresentationPrepared st)).step
          (ProverMessages.SendPresentation h) env = Except.ok sm' →
      sm'.connection_handle = Except.ok h) ∧
    (∀ (sid : String) (st : PresentationPreparationFailedState) (h : Nat) (env : StepEnv)
        (sm' : ProverSM),
      (ProverSM.mk sid (ProverState.PresentationPreparationFailed st)).step
          (ProverMessages.SendPresentation h) env = Except.ok sm' →
      sm'.connection_handle = Except.ok h) ∧
    (∀ (sid : String) (st : PresentationSentState) (m : ProverMessages) (env : StepEnv)
        (sm' : ProverSM),
      (ProverSM.mk sid (ProverState.PresentationSent st)).step m env = Except.ok sm' →
      sm'.connection_handle = Except.ok st.connection_handle) ∧
    (∀ (sid : String) (st : FinishedState) (m : ProverMessages) (env : StepEnv)
        (sm' : ProverSM),
      (ProverSM.mk sid (ProverState.Finished st)).step m env = Except.ok sm' →
      sm'.connection_handle = Except.ok st.connection_handle) := by
  refine ⟨fun sid st => rfl, fun sid st => rfl, fun sid st => rfl, ?_, ?_, ?_, ?_⟩
  · intro sid st h env sm' hstep
    cases hs : env.send_message <;> cases hr : env.remove_pending_message <;>
      simp only [ProverSM.step, hs, hr, Except.ok.injEq] at hstep <;>
      first
        | (subst hstep; simp [ProverSM.connection_handle])
        | simp at hstep
  · intro sid st h env sm' hstep
    cases hs : env.send_message <;>
      simp only [ProverSM.step, hs, Except.ok.injEq] at hstep <;>
      first
        | (subst hstep; simp [ProverSM.connection_handle])
        | simp at hstep
  · intro sid st m env sm' hstep
    cases m <;>
      simp only [ProverSM.step, Except.ok.injEq] at hstep <;>
      subst hstep <;> simp [ProverSM.connection_handle]
  · intro sid st m env sm' hstep
    simp only [ProverSM.step, Except.ok.injEq] at hstep
    subst hstep
    simp [ProverSM.connection_handle]

/-- Witness for C9: a concrete SendPresentation from prepared installs the
supplied handle. -/
theorem prover_connection_handle_spec_witness :
    (ProverSM.mk "source"
        (ProverState.PresentationPrepared ⟨requestW, Presentation.create⟩)).step
        (ProverMessages.SendPresentation 42) envOk =
      Except.ok ⟨"source", ProverState.PresentationSent
        ⟨42, requestW, Presentation.create⟩⟩ ∧
    (ProverSM.mk "source" (ProverState.PresentationSent
        ⟨42, requestW, Presentation.create⟩)).connection_handle = Except.ok 42 := by
  constructor
  · rfl
  · exact prover_connection_handle_spec.2.2.2.1 "source" ⟨requestW, Presentation.create⟩
      42 envOk _ rfl

/-! Claim theorems for inbound dispatch. -/

/-- C3 counterexample: in PresentationSent with a candidate map whose
iteration order lists a matching CommonProblemReport before a matching Ack,
find_message_to_handle returns the problem report even though a matching Ack
exists, refuting the claimed Ack-before-report preference. -/
theorem find_message_ack_preference_counterexample :
    smSentW.find_message_to_handle msgsW =
      some ("uid-1", A2AMessage.CommonProblemReport prW) ∧
    ("uid-2", A2AMessage.Ack ackW) ∈ msgsW ∧
    ackW.thread.is_reply smSentW.thread_id = true ∧
    some ("uid-1", A2AMessage.CommonProblemReport prW) ≠
      some ("uid-2", A2AMessage.Ack ackW) := by decide

/-- C3 amended: find_message_to_handle returns the first entry in iteration
order that is an Ack or a CommonProblemReport whose thread replies to the
machine thread id (no preference of Acks over problem reports); any returned
entry satisfies that predicate and comes from the map; in every state other
than PresentationSent nothing is returned. -/
theorem find_message_to_handle_first_match :
    (∀ (sm : ProverSM) (msgs : List (String × A2AMessage)),
      sm.find_message_to_handle msgs = msgs.find? sm.handleable) ∧
    (∀ (sm : ProverSM) (msgs : List (String × A2AMessage)) (uid : String)
        (msg : A2AMessage),
      sm.find_message_to_handle msgs = some (uid, msg) →
      sm.handleable (uid, msg) = true ∧ (uid, msg) ∈ msgs) ∧
    (∀ (sm : ProverSM) (msgs : List (String × A2AMessage)),
      (∀ st, sm.state ≠ ProverState.PresentationSent st) →
      sm.find_message_to_handle msgs = none) := by
  have hfind : ∀ (sm : ProverSM) (msgs : List (String × A2AMessage)),
      sm.find_message_to_handle msgs = msgs.find? sm.handleable := by
    intro sm msgs
    induction msgs with
    | nil => cases hst : sm.state <;> rfl
    | cons head tail ih =>
      obtain ⟨uid, msg⟩ := head
      cases hst : sm.state <;> cases msg <;>
        simp only [ProverSM.find_message_to_handle, ProverSM.handleable,
          List.find?, hst, ih] <;>
        first
          | rfl
          | simp [ih]
          | (rename_i x; cases hb : x.thread.is_reply sm.thread_id <;> simp [hb, ih])
  refine ⟨hfind, ?_, ?_⟩
  · intro sm msgs uid msg h
    rw [hfind] at h
    exact ⟨List.find?_some h, List.mem_of_find?_eq_some h⟩
  · intro sm msgs hst
    rw [hfind]
    rw [List.find?_eq_none]
    intro x _
    obtain ⟨xuid, xmsg⟩ := x
    cases hs : sm.state with
    | PresentationSent st => exact absurd hs (hst st)
    | _ => simp [ProverSM.handleable, hs]

/-- Witness for C3 amended: an Initiated machine returns nothing from a
nonempty candidate map. -/
theorem find_message_to_handle_first_match_witness :
    (ProverSM.new requestW "source").find_message_to_handle msgsW = none :=
  find_message_to_handle_first_match.2.2 (ProverSM.new requestW "source") msgsW
    (fun st h => by simp [ProverSM.new] at h)

/-! Claim theorems for the wire-level string codecs. -/

/-- C7: each MessageStatusCode serializes to its MS-1xx string, that string
deserializes back to the same code, the image of serialization is exactly
the seven MS-101..MS-107 strings, and every string outside this set fails to
deserialize. -/
theorem message_status_code_round_trip :
    (MessageStatusCode.to_string MessageStatusCode.Created = "MS-101" ∧
     MessageStatusCode.to_string MessageStatusCode.Sent = "MS-102" ∧
     MessageStatusCode.to_string MessageStatusCode.Received = "MS-103" ∧
     MessageStatusCode.to_string MessageStatusCode.Accepted = "MS-104" ∧
     MessageStatusCode.to_string MessageStatusCode.Rejected = "MS-105" ∧
     MessageStatusCode.to_string MessageStatusCode.Reviewed = "MS-106" ∧
     MessageStatusCode.to_string MessageStatusCode.Redirected = "MS-107") ∧
    (∀ s : MessageStatusCode,
      MessageStatusCode.deserialize s.to_string = Except.ok s) ∧
    (∀ s : MessageStatusCode, s.to_string ∈ MessageStatusCode.wireStrings) ∧
    (∀ t : String, t ∉ MessageStatusCode.wireStrings →
      MessageStatusCode.deserialize t = Except.error "Unexpected message type.") := by
  refine ⟨⟨rfl, rfl, rfl, rfl, rfl, rfl, rfl⟩, ?_, ?_, ?_⟩
  · intro s; cases s <;> rfl
  · intro s; cases s <;> simp [MessageStatusCode.to_string, MessageStatusCode.wireStrings]
  · intro t ht
    simp only [MessageStatusCode.wireStrings, List.mem_cons, List.not_mem_nil,
      or_false, not_or] at ht
    obtain ⟨h1, h2, h3, h4, h5, h6, h7⟩ := ht
    simp [MessageStatusCode.deserialize, h1, h2, h3, h4, h5, h6, h7]

/-- Witness for C7 at the concrete out-of-set string MS-999. -/
theorem message_status_code_round_trip_witness :
    "MS-999" ∉ MessageStatusCode.wireStrings ∧
    MessageStatusCode.deserialize "MS-999" = Except.error "Unexpected message type." :=
  ⟨by decide, message_status_code_round_trip.2.2.2 "MS-999" (by decide)⟩

/-- C8 counterexample: the RemoteMessageType value Other "connReq"
serializes to the string connReq, which deserializes to the canonical
ConnReq variant, not back to Other "connReq": the unrestricted round trip
fails. -/
theorem remote_message_type_round_trip_counterexample :
    RemoteMessageType.deserialize
        (RemoteMessageType.serialize (RemoteMessageType.Other "connReq")) =
      RemoteMessageType.ConnReq ∧
    RemoteMessageType.Other "connReq" ≠ RemoteMessageType.ConnReq := by decide

/-- C8 amended: deserializing the serialization of m yields m for every
RemoteMessageType m except an Other value carrying one of the recognized
canonical or alias tokens (such a token decodes to its canonical variant
instead); the alias CONN_REQ_ACCEPTED decodes to ConnReqAnswer, and
ConnReqAnswer encodes to the canonical connReqAnswer. -/
theorem remote_message_type_round_trip_amended :
    (∀ m : RemoteMessageType,
      (∀ s, m = RemoteMessageType.Other s → s ∉ RemoteMessageType.recognizedTokens) →
      RemoteMessageType.deserialize m.serialize = m) ∧
    RemoteMessageType.deserialize "CONN_REQ_ACCEPTED" = RemoteMessageType.ConnReqAnswer ∧
    RemoteMessageType.serialize RemoteMessageType.ConnReqAnswer = "connReqAnswer" := by
  refine ⟨?_, by decide, rfl⟩
  intro m h
  cases m with
  | Other s =>
    have hs := h s rfl
    simp only [RemoteMessageType.recognizedTokens, List.mem_cons, List.not_mem_nil,
      or_false, not_or] at hs
    obtain ⟨n1, n2, n3, n4, n5, n6, n7, n8, n9, n10, n11⟩ := hs
    simp [RemoteMessageType.serialize, RemoteMessageType.deserialize,
      n1, n2, n3, n4, n5, n6, n7, n8, n9, n10, n11]
  | ConnReq => decide
  | ConnReqAnswer => decide
  | ConnReqRedirect => decide
  | CredOffer => decide
  | CredReq => decide
  | Cred => decide
  | ProofReq => decide
  | Proof => decide

/-- Witness for C8 amended at the concrete unrecognized token customToken. -/
theorem remote_message_type_round_trip_amended_witness :
    RemoteMessageType.deserialize
        (RemoteMessageType.serialize (RemoteMessageType.Other "customToken")) =
      RemoteMessageType.Other "customToken" :=
  remote_message_type_round_trip_amended.1 (RemoteMessageType.Other "customToken")
    (fun s h => by
      injection h with h2
      subst h2
      decide)

/-! Concrete values for the decryption witnesses. -/

/-- Sample decrypted V2 payload with a thread id already present. -/
def payloadV2W : PayloadV2 :=
  { type_ := { did := "did", family := "CredentialExchange", version := "1.0",
               type_ := "presentation" },
    id := "pl-id", msg := "payloadjson", thread := { thid := some "req-1" } }

/-- Sample parsed V2 payload whose thread id is absent. -/
def payloadNoThidW : PayloadV2 :=
  { type_ := { did := "did", family := "CredentialExchange", version := "1.0",
               type_ := "presentation" },
    id := "pl-7", msg := "inner-msg", thread := { thid := none } }

/-- payloadNoThidW after the thid-from-id restoration. -/
def payloadFilledW : PayloadV2 :=
  { type_ := { did := "did", family := "CredentialExchange", version := "1.0",
               type_ := "presentation" },
    id := "pl-7", msg := "inner-msg", thread := { thid := some "pl-7" } }

/-- Payload-decryption environment on which every stage succeeds and the
parsed payload already carries a thread id. -/
def envV2Ok : DecryptPayloadV2Env :=
  { unpack_message := Except.ok [],
    parse_json := fun _ => Except.ok (Json.obj [("message", Json.str "payloadjson")]),
    parse_payload_v2 := fun _ => Except.ok payloadV2W }

/-- Payload-decryption environment whose parsed payload lacks a thread id. -/
def envV2NoThid : DecryptPayloadV2Env :=
  { unpack_message := Except.ok [],
    parse_json := fun _ => Except.ok (Json.obj [("message", Json.str "inner-msg")]),
    parse_payload_v2 := fun _ => Except.ok payloadNoThidW }

/-- Message-decryption environment whose V2 path succeeds. -/
def mdEnvW : MessageDecryptEnv :=
  { v2 := envV2Ok,
    open_envelope := Except.error { kind := VcxErrorKind.InvalidMessagePack, msg := "" },
    protocol := ProtocolTypes.V4,
    to_string_payloads := fun _ => "serialized-v2",
    to_string_payload_v1 := fun _ => "serialized-v1",
    to_string_a2a := fun _ => "serialized-a2a" }

/-- Sample message record with an encrypted payload present. -/
def messageW : Message :=
  { status_code := MessageStatusCode.Received,
    payload := some (MessagePayload.V2 Json.null),
    sender_did := "sender-did", uid := "uid-0",
    msg_type := RemoteMessageType.Proof, ref_msg_id := none,
    delivery_details := [], decrypted_payload := none }

/-- Sample message record with no payload but a previous decrypted payload. -/
def messageNoPayloadW : Message :=
  { status_code := MessageStatusCode.Reviewed,
    payload := none,
    sender_did := "sender-did", uid := "uid-1",
    msg_type := RemoteMessageType.Cred, ref_msg_id := some "uid-0",
    delivery_details := [], decrypted_payload := some "previous" }

/-! Claim theorems for message decryption. -/

/-- C5: on a message whose payload is present, decrypt clears the payload
and populates decrypted_payload: with the serialized V2 payload when
decrypt_payload_v2 succeeds (the V2 path is attempted first, regardless of
the fallback), with the serialized synthetic V1 payload when only the
_decrypt_v3_message fallback succeeds, and with the JSON string null when
both fail. -/
theorem message_decrypt_populates_decrypted_payload (m : Message)
    (env : MessageDecryptEnv) (vk : String) (j : Json)
    (hp : m.payload = some (MessagePayload.V2 j)) :
    ((m.decrypt env vk).payload = none) ∧
    (∀ p2, Payloads.decrypt_payload_v2 env.v2 vk j = Except.ok p2 →
      (m.decrypt env vk).decrypted_payload =
        some (env.to_string_payloads (Payloads.PayloadV2 p2))) ∧
    (∀ e p1, Payloads.decrypt_payload_v2 env.v2 vk j = Except.error e →
      m.decrypt_v3_message env = Except.ok p1 →
      (m.decrypt env vk).decrypted_payload = some (env.to_string_payload_v1 p1)) ∧
    (∀ e e2, Payloads.decrypt_payload_v2 env.v2 vk j = Except.error e →
      m.decrypt_v3_message env = Except.error e2 →
      (m.decrypt env vk).decrypted_payload = some "null") := by
  refine ⟨?_, ?_, ?_, ?_⟩
  · cases hv2 : Payloads.decrypt_payload_v2 env.v2 vk j <;>
      cases hv3 : m.decrypt_v3_message env <;>
      simp [Message.decrypt, hp, hv2, hv3]
  · intro p2 hv2; simp [Message.decrypt, hp, hv2]
  · intro e p1 hv2 hv3; simp [Message.decrypt, hp, hv2, hv3]
  · intro e e2 hv2 hv3; simp [Message.decrypt, hp, hv2, hv3]

/-- Witness for C5 at a concrete message and successful V2 environment. -/
theorem message_decrypt_populates_decrypted_payload_witness :
    (messageW.decrypt mdEnvW "vk").payload = none ∧
    (messageW.decrypt mdEnvW "vk").decrypted_payload = some "serialized-v2" :=
  ⟨(message_decrypt_populates_decrypted_payload messageW mdEnvW "vk" Json.null rfl).1,
   (message_decrypt_populates_decrypted_payload messageW mdEnvW "vk" Json.null rfl).2.1
     payloadV2W rfl⟩

/-- C6: whenever decrypt_payload_v2 succeeds the returned payload has a
thread id; when the parsed payload lacked one it is filled from the payload
id; and when the unpacked body carries no string field named message the
call fails with InvalidJson. -/
theorem decrypt_payload_v2_thid_invariant (env : DecryptPayloadV2Env)
    (vk : String) (payload : Json) :
    (∀ p, Payloads.decrypt_payload_v2 env vk payload = Except.ok p →
      p.thread.thid.isSome = true) ∧
    (∀ bytes j s q,
      env.unpack_message = Except.ok bytes →
      env.parse_json bytes = Except.ok j →
      (j.getField "message").as_str = some s →
      env.parse_payload_v2 s = Except.ok q →
      q.thread.thid = none →
      Payloads.decrypt_payload_v2 env vk payload =
        Except.ok { q with thread := { thid := some q.id } }) ∧
    (∀ bytes j,
      env.unpack_message = Except.ok bytes →
      env.parse_json bytes = Except.ok j →
      (j.getField "message").as_str = none →
      Payloads.decrypt_payload_v2 env vk payload =
        Except.error { kind := VcxErrorKind.InvalidJson,
                       msg := "Cannot find message field" }) := by
  refine ⟨?_, ?_, ?_⟩
  · intro p hok
    simp only [Payloads.decrypt_payload_v2] at hok
    cases hu : env.unpack_message with
    | error e => simp [hu] at hok
    | ok bytes =>
      simp only [hu] at hok
      cases hj : env.parse_json bytes with
      | error e => simp [hj] at hok
      | ok j =>
        simp only [hj] at hok
        cases hs : (j.getField "message").as_str with
        | none => simp [hs] at hok
        | some s =>
          simp only [hs] at hok
          cases hq : env.parse_payload_v2 s with
          | error e => simp [hq] at hok
          | ok q =>
            simp only [hq] at hok
            by_cases ht : q.thread.thid = none
            · rw [if_pos ht] at hok
              simp only [Except.ok.injEq] at hok
              subst hok
              rfl
            · rw [if_neg ht] at hok
              simp only [Except.ok.injEq] at hok
              subst hok
              exact Option.isSome_iff_ne_none.mpr ht
  · intro bytes j s q hu hj hs hq ht
    simp [Payloads.decrypt_payload_v2, hu, hj, hs, hq, ht]
  · intro bytes j hu hj hs
    simp [Payloads.decrypt_payload_v2, hu, hj, hs]

/-- Witness for C6: the thid-from-id restoration at a concrete payload, and
its thid is populated. -/
theorem decrypt_payload_v2_thid_invariant_witness :
    Payloads.decrypt_payload_v2 envV2NoThid "vk" Json.null = Except.ok payloadFilledW ∧
    payloadFilledW.thread.thid.isSome = true := by
  have h2 := (decrypt_payload_v2_thid_invariant envV2NoThid "vk" Json.null).2.1
    [] (Json.obj [("message", Json.str "inner-msg")]) "inner-msg" payloadNoThidW
    rfl rfl rfl rfl rfl
  exact ⟨h2, (decrypt_payload_v2_thid_invariant envV2NoThid "vk" Json.null).1
    payloadFilledW h2⟩

/-- C10: decrypt changes only payload and decrypted_payload; every other
field of the record is returned unchanged, and when no payload is present no
decryption is attempted (the result does not depend on the environment or
key) and decrypted_payload is returned as it was. -/
theorem message_decrypt_frame (m : Message) (env : MessageDecryptEnv) (vk : String) :
    ((m.decrypt env vk).status_code = m.status_code ∧
     (m.decrypt env vk).sender_did = m.sender_did ∧
     (m.decrypt env vk).uid = m.uid ∧
     (m.decrypt env vk).msg_type = m.msg_type ∧
     (m.decrypt env vk).ref_msg_id = m.ref_msg_id ∧
     (m.decrypt env vk).delivery_details = m.delivery_details) ∧
    (m.payload = none →
      (m.decrypt env vk).decrypted_payload = m.decrypted_payload ∧
      (m.decrypt env vk).payload = none ∧
      (∀ (env2 : MessageDecryptEnv) (vk2 : String),
        m.decrypt env vk = m.decrypt env2 vk2)) := by
  constructor
  · cases hp : m.payload with
    | none => simp [Message.decrypt, hp]
    | some mp =>
      obtain ⟨j⟩ := mp
      cases hv2 : Payloads.decrypt_payload_v2 env.v2 vk j <;>
        cases hv3 : m.decrypt_v3_message env <;>
        simp [Message.decrypt, hp, hv2, hv3]
  · intro hp
    refine ⟨by simp [Message.decrypt, hp], by simp [Message.decrypt, hp], ?_⟩
    intro env2 vk2
    simp [Message.decrypt, hp]

/-- Witness for C10 at a concrete record with no payload. -/
theorem message_decrypt_frame_witness :
    (messageNoPayloadW.decrypt mdEnvW "vk").ref_msg_id = some "uid-0" ∧
    (messageNoPayloadW.decrypt mdEnvW "vk").decrypted_payload = some "previous" ∧
    (messageNoPayloadW.decrypt mdEnvW "vk").payload = none := by
  have h := message_decrypt_frame messageNoPayloadW mdEnvW "vk"
  have h2 := h.2 rfl
  exact ⟨(h.1.2.2.2.2.1).trans rfl, h2.1.trans rfl, h2.2.1⟩

end AriesVcx
